import Mathlib

/-!
Formal model of the real-time response-delivery pipeline of the portfolio
AI-assistant frontend: the client dispatcher (ChatManager.handleWebSocketMessage),
the turn coordinator (TerminalInterface.sendMessageToServer and its handlers),
the rate/debounce gate (MessageDebouncer.sendMessage), the terminal input
validation (TerminalInput.handleKeyDown) and the animation-timing configuration
(RESPONSE_ANIMATION_CONFIG).

Modelling conventions.  The client is single-threaded and event driven; we model
event handlers as pure functions on explicit state records.  React state setters
called inside an event handler do not mutate the values visible to that handler:
the update is applied when the handler returns, and a closure created inside a
handler (for example a setTimeout callback) keeps the values of the render in
which it was created.  Where a callback captures such a snapshot we pass the
captured value explicitly.  Times are in milliseconds (natural numbers);
animation durations from the configuration are in seconds (rationals), exactly
as in the source.
-/

namespace PortfolioChat

/-- InteractionState of TerminalInterface.tsx: the animation phase variable of
the client (type InteractionState, lines 13-19). -/
inductive InteractionState where
  | idle
  | typing
  | sending
  | receiving
  | responding
  | dissolving
deriving DecidableEq, Repr

/- ===== Animation-timing configuration (RESPONSE_ANIMATION_CONFIG) =====
Values from the configuration module cited by the claims (durations in
seconds, buffers in milliseconds). -/

/-- EMERGENCE_DURATION: 1 (seconds). -/
def EMERGENCE_DURATION : ℚ := 1

/-- EMERGENCE_STAGGER: 0.2 (seconds). -/
def EMERGENCE_STAGGER : ℚ := 2/10

/-- DISSOLUTION_DURATION: 1 (seconds). -/
def DISSOLUTION_DURATION : ℚ := 1

/-- DISSOLUTION_STAGGER: 0.3 (seconds). -/
def DISSOLUTION_STAGGER : ℚ := 3/10

/-- TIMING_BUFFER: 0 (milliseconds). -/
def TIMING_BUFFER : ℚ := 0

/-- EMERGENCE_TOTAL_MS getter: (EMERGENCE_DURATION + EMERGENCE_STAGGER) * 1000. -/
def EMERGENCE_TOTAL_MS : ℚ := (EMERGENCE_DURATION + EMERGENCE_STAGGER) * 1000

/-- DISSOLUTION_TOTAL_MS getter: (DISSOLUTION_DURATION + DISSOLUTION_STAGGER) * 1000. -/
def DISSOLUTION_TOTAL_MS : ℚ := (DISSOLUTION_DURATION + DISSOLUTION_STAGGER) * 1000

/-- MAX_ANIMATION_MS getter: Math.max of the two totals. -/
def MAX_ANIMATION_MS : ℚ := max EMERGENCE_TOTAL_MS DISSOLUTION_TOTAL_MS

/-- MINIMUM_API_INTERVAL_MS getter: MAX_ANIMATION_MS + TIMING_BUFFER. -/
def MINIMUM_API_INTERVAL_MS : ℚ := MAX_ANIMATION_MS + TIMING_BUFFER

/-- Helper: the configured floor evaluates to 1300 ms. -/
theorem MINIMUM_API_INTERVAL_MS_eq : MINIMUM_API_INTERVAL_MS = 1300 := by
  unfold MINIMUM_API_INTERVAL_MS MAX_ANIMATION_MS EMERGENCE_TOTAL_MS
    DISSOLUTION_TOTAL_MS EMERGENCE_DURATION EMERGENCE_STAGGER
    DISSOLUTION_DURATION DISSOLUTION_STAGGER TIMING_BUFFER
  rw [max_eq_right (by norm_num)]
  norm_num

/-- Natural-number (milliseconds) image of the configured floor, used by the
coordinator arithmetic, which works on integral Date.now differences. -/
def minIntervalMs : ℕ := 1300

/-- Helper: minIntervalMs agrees with the configuration getter. -/
theorem minIntervalMs_matches : (minIntervalMs : ℚ) = MINIMUM_API_INTERVAL_MS := by
  rw [MINIMUM_API_INTERVAL_MS_eq]
  norm_num [minIntervalMs]

/- ===== Turn coordinator timing (TerminalInterface.sendMessageToServer) ===== -/

/-- Math.max(0, MINIMUM_API_INTERVAL_MS - elapsed) of TerminalInterface.tsx
line 121 (remainingTime).  Natural subtraction truncates at zero exactly as
Math.max(0, _) does on the integral difference. -/
def remainingTime (elapsed : ℕ) : ℕ := max 0 (minIntervalMs - elapsed)

/-- Elapsed time from the start of sending at which the coordinator proceeds
past the minimum-timing gate: the elapsed time at answer arrival plus the
additional wait of lines 123-128 (executed only when remainingTime > 0). -/
def timeWhenRespondingBegins (elapsed : ℕ) : ℕ := elapsed + remainingTime elapsed

/- ===== Chunk rendering (TerminalInterface.handleResponseReceived) ===== -/

/-- handleResponseReceived of TerminalInterface.tsx lines 169-177: stores the
incoming chunk as THE pending response (setPendingResponse(chunk);
pendingResponseRef.current = chunk).  The previous pending content is
discarded, not extended. -/
def handleResponseReceived (_pendingResponse chunk : String) : String := chunk

/-- Pending response after an ordered sequence of ai_response_chunk frames has
been dispatched through onResponseReceived, starting from the initial empty
buffer.  This is the text the coordinator later installs as currentResponse. -/
def pendingAfterChunks (chunks : List String) : String :=
  chunks.foldl handleResponseReceived ""

/-- Modelled from the spec: the rendering the specification describes, namely
the concatenation of the chunk contents in arrival order (response_payload as
an ordered sequence of chunks concatenated in arrival order).  Stated for
comparison with pendingAfterChunks, which is the code. -/
def specConcatRender (chunks : List String) : String := String.join chunks

/-- Helper: folding the replace-style handler over a chunk list yields the last
chunk (or the start value when the list is empty). -/
theorem foldl_handleResponseReceived (a : String) (l : List String) :
    l.foldl handleResponseReceived a = l.getLastD a := by
  induction l generalizing a with
  | nil => rfl
  | cons x xs ih => rw [List.foldl_cons, List.getLastD_cons]; exact ih x

/- ===== Client dispatcher (ChatManager.handleWebSocketMessage) ===== -/

/-- Inbound wire frame as seen by the dispatcher: a type tag plus the data
fields the handled cases read (data.quote, data.content, data.message.content,
data.error).  Fields irrelevant to a given frame default to the empty string. -/
structure InboundFrame where
  type : String
  quote : String := ""
  content : String := ""
  messageContent : String := ""
  errorText : String := ""
deriving DecidableEq, Repr

/-- Observable effect of dispatching one inbound frame
(ChatManager.handleWebSocketMessage, lines 167-206): which UI callbacks are
invoked with which arguments, whether a state change is deferred by a timer
(the 300 ms setTimeout of the ai_response case), whether the dispatcher closes
the connection (it never does), and whether the frame is merely logged as
unknown (the default case). -/
structure DispatchEffects where
  onQuoteReceived : Option String := none
  onResponseReceived : Option String := none
  onStateChange : Option InteractionState := none
  delayedStateChange : Option (ℕ × InteractionState) := none
  closesConnection : Bool := false
  logsUnknownType : Bool := false
deriving DecidableEq, Repr

/-- handleWebSocketMessage of ChatManager (MessageDebouncer.tsx second
component, lines 167-206), translated case by case from the switch on
data.type. -/
def handleWebSocketMessage (d : InboundFrame) : DispatchEffects :=
  if d.type = "conversation_quote" then
    { onQuoteReceived := some d.quote }
  else if d.type = "message_received" then
    { onStateChange := some InteractionState.receiving }
  else if d.type = "ai_response_chunk" then
    { onResponseReceived := some d.content,
      onStateChange := some InteractionState.responding }
  else if d.type = "ai_response_complete" then
    { onStateChange := some InteractionState.responding }
  else if d.type = "ai_response" then
    { onResponseReceived := some d.messageContent,
      delayedStateChange := some (300, InteractionState.responding) }
  else if d.type = "error" then
    { onStateChange := some InteractionState.idle }
  else
    { logsUnknownType := true }

/- ===== Terminal interface state and event steps ===== -/

/-- Client-side state relevant to the turn coordinator: the interaction state,
the displayed response (currentResponse), the pending response buffer
(pendingResponse / pendingResponseRef), the dissolve flags
(shouldDissolveResponse, isDissolutionCompleteRef), whether a 50 ms dissolve
timer is outstanding, and the idle-state quote. -/
structure TerminalState where
  interactionState : InteractionState
  currentResponse : String
  pendingResponse : String
  shouldDissolveResponse : Bool
  isDissolutionComplete : Bool
  dissolveTimerPending : Bool
  quote : String
deriving DecidableEq, Repr

/-- Initial client state: idle, nothing displayed, nothing pending, no
dissolution in progress (isDissolutionCompleteRef starts true). -/
def initialTerminalState : TerminalState :=
  { interactionState := InteractionState.idle
    currentResponse := ""
    pendingResponse := ""
    shouldDissolveResponse := false
    isDissolutionComplete := true
    dissolveTimerPending := false
    quote := "" }

/-- Application of the immediate dispatcher effects to the terminal state, via
the handlers TerminalInterface passes to ChatManager: onQuoteReceived sets the
quote, onResponseReceived stores the chunk as the pending response
(handleResponseReceived), onStateChange sets interactionState.  The delayed
state change (a timer) is not an immediate effect. -/
def applyDispatchEffects (e : DispatchEffects) (s : TerminalState) : TerminalState :=
  let s1 := match e.onQuoteReceived with
    | some q => { s with quote := q }
    | none => s
  let s2 := match e.onResponseReceived with
    | some c => { s1 with pendingResponse := handleResponseReceived s1.pendingResponse c }
    | none => s1
  match e.onStateChange with
    | some st => { s2 with interactionState := st }
    | none => s2

/-- Events driving the terminal interface.
userSubmit: handleMessageSend plus the synchronous part of
  sendMessageToServer (setInteractionState(sending); the message is dispatched
  over the socket; a 50 ms dissolve timer is scheduled when a previous answer
  is displayed).
dissolveTimer: the 50 ms setTimeout callback of handleMessageSend lines 78-83
  (isDissolutionCompleteRef.current = false; setShouldDissolveResponse(true);
  setInteractionState(dissolving)); a no-op when no such timer is outstanding.
frame: an inbound wire frame routed through handleWebSocketMessage.
coordinatorResume: the tail of sendMessageToServer lines 152-157, valid once
  its waits have finished (setCurrentResponse(pendingResponseRef);
  clear pending; setShouldDissolveResponse(false);
  setInteractionState(responding)).
dissolveAnimationComplete: the onDissolveComplete callback of
  ResponseEmergence (isDissolutionCompleteRef.current = true;
  setCurrentResponse(empty); setShouldDissolveResponse(false)). -/
inductive ClientEvent where
  | userSubmit (msg : String)
  | dissolveTimer
  | frame (f : InboundFrame)
  | coordinatorResume
  | dissolveAnimationComplete
deriving DecidableEq, Repr

/-- One event-handler step of the terminal interface. -/
def terminalStep (s : TerminalState) (e : ClientEvent) : TerminalState :=
  match e with
  | ClientEvent.userSubmit _ =>
      { s with interactionState := InteractionState.sending
               dissolveTimerPending := s.currentResponse ≠ "" }
  | ClientEvent.dissolveTimer =>
      if s.dissolveTimerPending then
        { s with dissolveTimerPending := false
                 isDissolutionComplete := false
                 shouldDissolveResponse := true
                 interactionState := InteractionState.dissolving }
      else s
  | ClientEvent.frame f => applyDispatchEffects (handleWebSocketMessage f) s
  | ClientEvent.coordinatorResume =>
      { s with currentResponse := s.pendingResponse
               pendingResponse := ""
               shouldDissolveResponse := false
               interactionState := InteractionState.responding }
  | ClientEvent.dissolveAnimationComplete =>
      { s with isDissolutionComplete := true
               currentResponse := ""
               shouldDissolveResponse := false }

/-- Event trace realising the mutual-exclusion race: a first turn completes and
displays answer A; a second message is submitted, the 50 ms timer starts the
dissolution of A; while that dissolution is still running (it lasts about
900 ms and has not signalled completion) a streamed chunk of the second answer
arrives and the dispatcher immediately sets the responding state. -/
def mutualExclusionTrace : List ClientEvent :=
  [ClientEvent.userSubmit "first question",
   ClientEvent.frame { type := "ai_response_chunk", content := "A" },
   ClientEvent.coordinatorResume,
   ClientEvent.userSubmit "second question",
   ClientEvent.dissolveTimer,
   ClientEvent.frame { type := "ai_response_chunk", content := "B" }]

/- ===== Rate/debounce gate (MessageDebouncer) ===== -/

/-- React state of MessageDebouncer: isDebouncing and pendingMessage
(lines 14-15). -/
structure DebouncerState where
  isDebouncing : Bool
  pendingMessage : Option String
deriving DecidableEq, Repr

/-- Result of one invocation of MessageDebouncer.sendMessage: the state after
the handler flushes, the boolean the call returns, the message put on the
channel now (if any), and, when the debounce timer was scheduled, the snapshot
of pendingMessage its callback captured (the value of the render in which this
invocation was created). -/
structure SendAttemptResult where
  state : DebouncerState
  returnedTrue : Bool
  sentOverChannel : Option String
  timerSnapshot : Option (Option String)
deriving DecidableEq, Repr

/-- sendMessage of MessageDebouncer.tsx lines 27-57.  When the gate is closed
(not connected, or debouncing) the message is stored as the single pending
message and false is returned.  Otherwise isDebouncing is set, the message is
sent, and the debounce timer is scheduled; its callback closes over the
pendingMessage value of the current render. -/
def debSendMessage (isConnected : Bool) (s : DebouncerState) (message : String) :
    SendAttemptResult :=
  if isConnected = false ∨ s.isDebouncing = true then
    { state := { s with pendingMessage := some message }
      returnedTrue := false
      sentOverChannel := none
      timerSnapshot := none }
  else
    { state := { s with isDebouncing := true }
      returnedTrue := true
      sentOverChannel := some message
      timerSnapshot := some s.pendingMessage }

/-- Debounce-timer callback of MessageDebouncer.tsx lines 39-49, parameterised
by the pendingMessage snapshot the callback captured when it was created.  It
clears isDebouncing; only when the CAPTURED snapshot holds a message does it
clear pendingMessage and schedule a re-send of that captured message.  Returns
the new state and the message scheduled for re-sending, if any. -/
def debTimerFire (s : DebouncerState) (captured : Option String) :
    DebouncerState × Option String :=
  match captured with
  | some nextMessage =>
      ({ s with isDebouncing := false, pendingMessage := none }, some nextMessage)
  | none => ({ s with isDebouncing := false }, none)

/- ===== Terminal input validation (TerminalInput.handleKeyDown) ===== -/

/-- JavaScript String.prototype.trim: removes whitespace from both ends of the
string (modelled with Char.isWhitespace, matching the blank, tab, carriage
return and newline characters that appear in chat input). -/
def jsTrim (s : String) : String :=
  String.mk (((s.toList.dropWhile Char.isWhitespace).reverse.dropWhile
    Char.isWhitespace).reverse)

/-- Word count of TerminalInput.tsx line 179:
message.split(whitespace runs).filter(word with length > 0).length.  Splitting
on every whitespace character and discarding empty pieces counts exactly the
maximal whitespace-free runs, as the regular expression split does. -/
def jsWordCount (message : String) : ℕ :=
  ((message.toList.splitOnP (fun c => c.isWhitespace)).filter
    (fun w => decide (0 < w.length))).length

/-- handleKeyDown of TerminalInput.tsx lines 175-191, restricted to an Enter
key press: when the input is enabled and its trimmed value non-empty, the
trimmed message is checked against the 200-word maximum; over-limit input is
rejected locally (an alert, no send) and the function returns without invoking
onMessageSend.  The result is the message passed to onMessageSend, if any. -/
def handleKeyDownEnter (disabled : Bool) (inputValue : String) : Option String :=
  if disabled = false ∧ jsTrim inputValue ≠ "" then
    if 200 < jsWordCount (jsTrim inputValue) then none
    else some (jsTrim inputValue)
  else none

/- ===== Coordinator polling and timeouts (waitForResponse / waitForDissolution) ===== -/

/-- Polling loop of TerminalInterface.tsx lines 101-114 and 134-147: while the
awaited condition is false and totalWaited < maxWaitTime, sleep 100 ms
(pollInterval) and add 100 to totalWaited.  The fuel argument only bounds the
recursion and is chosen large enough never to be exhausted for the
configurations used (maxWaitTime 10000 or 5000). -/
def pollLoop (avail : ℕ → Bool) (maxWaitTime : ℕ) : ℕ → ℕ → ℕ
  | 0, totalWaited => totalWaited
  | fuel + 1, totalWaited =>
      if avail totalWaited = false ∧ totalWaited < maxWaitTime then
        pollLoop avail maxWaitTime fuel (totalWaited + 100)
      else totalWaited

/-- Availability of the answer as a function of waited time, given the time at
which pendingResponseRef becomes non-empty (none when the answer never
arrives). -/
def responseAvailable (arrival : Option ℕ) : ℕ → Bool :=
  fun t =>
    match arrival with
    | some a => decide (a ≤ t)
    | none => false

/-- waitForResponse of TerminalInterface.tsx lines 101-114: poll every 100 ms
with a 10 second budget; the first component tells whether the answer was there
when the loop stopped (false means the 10 s timeout throws), the second is the
total time waited. -/
def waitForResponseResult (arrival : Option ℕ) : Bool × ℕ :=
  let w := pollLoop (responseAvailable arrival) 10000 200 0
  (responseAvailable arrival w, w)

/-- waitForDissolution of TerminalInterface.tsx lines 134-147: poll every
100 ms with a 5 second budget; on timeout it only warns and the coordinator
proceeds anyway. -/
def waitForDissolutionResult (dissolutionComplete : ℕ → Bool) : Bool × ℕ :=
  let w := pollLoop dissolutionComplete 5000 200 0
  (dissolutionComplete w, w)

/-- Final interaction state of one sendMessageToServer turn (lines 87-162) as
a function of when the answer arrives and of the dissolution-complete signal:
if waitForResponse times out, the thrown error is caught and the state becomes
idle; otherwise the coordinator performs its bounded waits (minimum interval,
then dissolution with the 5 s safety net) and always ends in responding. -/
def sendTurnFinalState (arrival : Option ℕ) (dissolutionComplete : ℕ → Bool) :
    InteractionState :=
  if (waitForResponseResult arrival).1 = true then
    let _dissolveWait := waitForDissolutionResult dissolutionComplete
    InteractionState.responding
  else InteractionState.idle

/- ===== Submit-handler effect trace (handleMessageSend) ===== -/

/-- Observable effects of the submit handler: the socket send, an applied
interaction-state value (React flushes setter calls after the handler), the
start of the definition-crumbling animation, and the 5 s backup that hides the
definition. -/
inductive SubmitEffect where
  | wsSend (msg : String)
  | applyState (st : InteractionState)
  | crumbleDefinition
  | hideDefinitionBackup
deriving DecidableEq, Repr

/-- Effect trace of handleMessageSend (TerminalInterface.tsx lines 54-85) for
one submission, as (delay in ms, effect) pairs listed in the order the effects
become observable.  The send is dispatched synchronously inside the handler
(sendMessageToServer runs up to its await, and the promise executor of
ChatManager.sendMessage performs the socket send synchronously); every state
setter called in the handler is applied only when the handler returns; the
dissolve transition is a setTimeout callback with a 50 ms delay, scheduled only
when a previous answer is displayed; the first-interaction crumble effects flush
with the other setters and their backup timer runs at 5000 ms. -/
def handleMessageSendTrace (isFirstInteraction : Bool) (currentResponse : String)
    (msg : String) : List (ℕ × SubmitEffect) :=
  [(0, SubmitEffect.wsSend msg), (0, SubmitEffect.applyState InteractionState.sending)] ++
  (if isFirstInteraction then
    [(0, SubmitEffect.crumbleDefinition), (5000, SubmitEffect.hideDefinitionBackup)]
  else []) ++
  (if currentResponse ≠ "" then
    [(50, SubmitEffect.applyState InteractionState.dissolving)]
  else [])

/-- Predicate selecting the effects that change client-visible animation state
(everything except the socket send itself). -/
def isStateChangeEffect : SubmitEffect → Bool
  | SubmitEffect.wsSend _ => false
  | _ => true

/- ===== Connection channel (ChatManager websocket lifecycle) ===== -/

/-- Connection-related state of ChatManager: the visitor identifier generated
once on mount, and the connected flag. -/
structure ChatConnection where
  visitorId : String
  isConnected : Bool
deriving DecidableEq, Repr

/-- WebSocket URL built by connectWebSocket (MessageDebouncer.tsx second
component, line 123): protocol, host and optional port followed by the chat
path parameterised by the visitor identifier. -/
def wsChatUrl (protocolHostPort : String) (visitorId : String) : String :=
  protocolHostPort ++ "/ws/chat?visitor_id=" ++ visitorId

/-- onclose handler of the websocket (lines 140-148): mark disconnected and
schedule exactly one reconnection attempt after a 3000 ms delay; the scheduled
connectWebSocket closure uses the same visitorId (the identifier is generated
once on mount and never regenerated).  The second component lists the scheduled
attempts as (delay, visitorId used) pairs. -/
def onCloseHandler (s : ChatConnection) : ChatConnection × List (ℕ × String) :=
  ({ s with isConnected := false }, [(3000, s.visitorId)])

/-- Connection state after n consecutive unexpected closes. -/
def stateAfterCloses : ChatConnection → ℕ → ChatConnection
  | s, 0 => s
  | s, n + 1 => stateAfterCloses (onCloseHandler s).1 n

/-- All reconnection attempts scheduled across n consecutive unexpected
closes, in order. -/
def reconnectSchedulesAfterCloses : ChatConnection → ℕ → List (ℕ × String)
  | _, 0 => []
  | s, n + 1 => (onCloseHandler s).2 ++ reconnectSchedulesAfterCloses (onCloseHandler s).1 n

/- ===== Claim theorems ===== -/

/-- C1 counterexample: chunks Hel, lo-comma-blank, world delivered in order
render as world, not as Hello, world: the chunk handler replaces the pending
response with each chunk instead of concatenating (specConcatRender is the
spec-described concatenation, pendingAfterChunks is the code). -/
theorem chunk_replacement_counterexample :
    pendingAfterChunks ["Hel", "lo, ", "world"] = "world" ∧
    specConcatRender ["Hel", "lo, ", "world"] = "Hello, world" ∧
    pendingAfterChunks ["Hel", "lo, ", "world"] ≠
      specConcatRender ["Hel", "lo, ", "world"] :=
  ⟨by decide, by decide, by decide⟩

/-- C1 (amended): for every answer streamed as an ordered sequence of
ai_response_chunk frames, the text the client finally renders equals the
content of the last chunk in arrival order (empty when no chunk arrived):
handleResponseReceived stores each chunk as the whole pending response, so the
buffer the coordinator installs is the last chunk, not the concatenation. -/
theorem rendered_text_is_last_chunk (chunks : List String) :
    pendingAfterChunks chunks = chunks.getLastD "" :=
  foldl_handleResponseReceived "" chunks

/-- C2: the mutual-exclusion invariant between dissolving and responding is
violated by the code.  Evaluating the client event handlers over the concrete
trace (first turn completes and displays answer A; a second message is
submitted; the 50 ms timer starts dissolving A; a chunk of the second answer
arrives while that dissolution is still running) reaches a state whose
dissolution is active (shouldDissolveResponse true, completion not signalled)
while the interaction state is responding over the still-displayed response:
the dispatcher sets responding immediately on every ai_response_chunk frame,
bypassing the coordinator wait for dissolution completion. -/
theorem dissolving_responding_overlap_reachable :
    (mutualExclusionTrace.foldl terminalStep initialTerminalState).interactionState
        = InteractionState.responding ∧
    (mutualExclusionTrace.foldl terminalStep initialTerminalState).shouldDissolveResponse
        = true ∧
    (mutualExclusionTrace.foldl terminalStep initialTerminalState).isDissolutionComplete
        = false ∧
    (mutualExclusionTrace.foldl terminalStep initialTerminalState).currentResponse = "A" :=
  ⟨by decide, by decide, by decide, by decide⟩

/-- C3: whenever the answer arrives before the configured floor
(MINIMUM_API_INTERVAL_MS, which evaluates to minIntervalMs = 1300 ms) has
elapsed since the send began, the coordinator waits out the remainder, so the
elapsed time at which the responding transition can begin is at least the
floor; and when the answer arrives at or after the floor, the remaining wait
is zero and no additional floor wait is added. -/
theorem minimum_floor_enforced (elapsed : ℕ) :
    minIntervalMs ≤ timeWhenRespondingBegins elapsed ∧
    (minIntervalMs ≤ elapsed →
      remainingTime elapsed = 0 ∧ timeWhenRespondingBegins elapsed = elapsed) ∧
    MINIMUM_API_INTERVAL_MS = (minIntervalMs : ℚ) := by
  refine ⟨?_, fun h => ?_, minIntervalMs_matches.symm⟩
  · simp only [timeWhenRespondingBegins, remainingTime, minIntervalMs]
    omega
  · simp only [minIntervalMs] at h
    simp only [timeWhenRespondingBegins, remainingTime, minIntervalMs]
    omega

/-- C3 witness: concrete instances, a fast answer at 40 ms still waits to the
floor, a slow answer at 2000 ms proceeds with no additional wait. -/
theorem minimum_floor_enforced_witness :
    minIntervalMs ≤ timeWhenRespondingBegins 40 ∧
    timeWhenRespondingBegins 2000 = 2000 :=
  ⟨(minimum_floor_enforced 40).1, ((minimum_floor_enforced 2000).2.1 (by decide)).2⟩

/-- C4: the pending message is NOT sent automatically when the cool-down
elapses.  The debounce timer scheduled by a successful send captures the
pendingMessage value of the render in which the send ran (none); a message
submitted during the cool-down is stored as pending, but when the timer fires
its callback consults the captured snapshot, finds none, re-sends nothing and
leaves the stored message pending with the gate open. -/
theorem cooldown_elapse_does_not_send_pending :
    (debSendMessage true { isDebouncing := false, pendingMessage := none }
        "first").timerSnapshot = some none ∧
    (debSendMessage true
        (debSendMessage true { isDebouncing := false, pendingMessage := none }
          "first").state "second").state.pendingMessage = some "second" ∧
    debTimerFire
        (debSendMessage true
          (debSendMessage true { isDebouncing := false, pendingMessage := none }
            "first").state "second").state none
      = ({ isDebouncing := false, pendingMessage := some "second" }, none) :=
  ⟨by decide, by decide, by decide⟩

/-- C5: while the gate is closed (disconnected or debouncing) a submission is
stored as the single pending message and reported not sent (false returned,
nothing on the channel), and a second submission in the same window replaces
the stored message instead of queueing a second one. -/
theorem at_most_one_pending_replacement (isConnected : Bool) (s : DebouncerState)
    (m₁ m₂ : String) (h : isConnected = false ∨ s.isDebouncing = true) :
    (debSendMessage isConnected s m₁).state.pendingMessage = some m₁ ∧
    (debSendMessage isConnected s m₁).returnedTrue = false ∧
    (debSendMessage isConnected s m₁).sentOverChannel = none ∧
    (debSendMessage isConnected (debSendMessage isConnected s m₁).state
        m₂).state.pendingMessage = some m₂ ∧
    (debSendMessage isConnected (debSendMessage isConnected s m₁).state
        m₂).returnedTrue = false ∧
    (debSendMessage isConnected (debSendMessage isConnected s m₁).state
        m₂).sentOverChannel = none := by
  simp only [debSendMessage, if_pos h]
  simp

/-- C5 witness: two rapid submissions while disconnected leave exactly the
latest message pending. -/
theorem at_most_one_pending_replacement_witness :
    (debSendMessage false { isDebouncing := false, pendingMessage := none }
        "alpha").state.pendingMessage = some "alpha" ∧
    (debSendMessage false
        (debSendMessage false { isDebouncing := false, pendingMessage := none }
          "alpha").state "beta").state.pendingMessage = some "beta" := by
  have h := at_most_one_pending_replacement false
    { isDebouncing := false, pendingMessage := none } "alpha" "beta" (Or.inl rfl)
  exact ⟨h.1, h.2.2.2.1⟩

/-- Helper: with enough fuel the polling loop stops either because the awaited
condition held at the stopping time or because the budget was exhausted. -/
theorem pollLoop_exit (avail : ℕ → Bool) (maxWaitTime : ℕ) :
    ∀ fuel totalWaited, maxWaitTime ≤ totalWaited + fuel * 100 →
      avail (pollLoop avail maxWaitTime fuel totalWaited) = true ∨
      maxWaitTime ≤ pollLoop avail maxWaitTime fuel totalWaited := by
  intro fuel
  induction fuel with
  | zero =>
      intro w h
      right
      simpa using h
  | succ n ih =>
      intro w h
      rw [pollLoop]
      by_cases hc : avail w = false ∧ w < maxWaitTime
      · rw [if_pos hc]
        exact ih (w + 100) (by omega)
      · rw [if_neg hc]
        rcases Bool.eq_false_or_eq_true (avail w) with ht | hf
        · left
          exact ht
        · right
          have hnl : ¬ w < maxWaitTime := fun hlt => hc ⟨hf, hlt⟩
          omega

/-- C6: the coordinator never blocks indefinitely.  If no answer arrives, the
response poll gives up after exactly 10000 ms and the caught error returns the
client to idle; if the answer arrives within the bound but the dissolution
callback never fires, the dissolution poll gives up after exactly 5000 ms and
the coordinator still proceeds to responding. -/
theorem coordinator_timeouts_bounded :
    (∀ dissolutionComplete : ℕ → Bool,
      sendTurnFinalState none dissolutionComplete = InteractionState.idle) ∧
    waitForResponseResult none = (false, 10000) ∧
    (∀ a : ℕ, a ≤ 10000 →
      sendTurnFinalState (some a) (fun _ => false) = InteractionState.responding) ∧
    waitForDissolutionResult (fun _ => false) = (false, 5000) := by
  refine ⟨?_, by decide, ?_, by decide⟩
  · intro dissolutionComplete
    simp [sendTurnFinalState, waitForResponseResult, responseAvailable]
  · intro a ha
    have hexit := pollLoop_exit (responseAvailable (some a)) 10000 200 0 (by omega)
    have havail : responseAvailable (some a)
        (pollLoop (responseAvailable (some a)) 10000 200 0) = true := by
      rcases hexit with hgood | hlate
      · exact hgood
      · simp only [responseAvailable]
        exact decide_eq_true (le_trans ha hlate)
    simp [sendTurnFinalState, waitForResponseResult, havail]

/-- C6 witness: a turn with no answer at all ends idle; a turn whose answer
arrives at 300 ms with a stuck dissolve callback still ends responding. -/
theorem coordinator_timeouts_bounded_witness :
    sendTurnFinalState none (fun _ => true) = InteractionState.idle ∧
    sendTurnFinalState (some 300) (fun _ => false) = InteractionState.responding :=
  ⟨coordinator_timeouts_bounded.1 (fun _ => true),
   coordinator_timeouts_bounded.2.2.1 300 (by decide)⟩

/-- C7: every message passed to onMessageSend is the trimmed, non-empty input
of at most 200 words, and any input whose trimmed word count exceeds 200 is
rejected locally with no send (onMessageSend never invoked). -/
theorem word_limit_validation (disabled : Bool) (inputValue message : String) :
    (handleKeyDownEnter disabled inputValue = some message →
      message = jsTrim inputValue ∧ message ≠ "" ∧ jsWordCount message ≤ 200) ∧
    (200 < jsWordCount (jsTrim inputValue) →
      handleKeyDownEnter disabled inputValue = none) := by
  constructor
  · intro h
    unfold handleKeyDownEnter at h
    by_cases h₁ : disabled = false ∧ jsTrim inputValue ≠ ""
    · rw [if_pos h₁] at h
      by_cases h₂ : 200 < jsWordCount (jsTrim inputValue)
      · rw [if_pos h₂] at h
        cases h
      · rw [if_neg h₂] at h
        injection h with h₃
        subst h₃
        exact ⟨rfl, h₁.2, Nat.le_of_not_lt h₂⟩
    · rw [if_neg h₁] at h
      cases h
  · intro hw
    unfold handleKeyDownEnter
    by_cases h₁ : disabled = false ∧ jsTrim inputValue ≠ ""
    · rw [if_pos h₁, if_pos hw]
    · rw [if_neg h₁]

/-- Concrete over-limit input: 201 words of one letter each. -/
def overLimitInput : String := String.intercalate " " (List.replicate 201 "a")

set_option maxRecDepth 4000 in
/-- C7 witness: the 201-word input is rejected with no send, and an accepted
concrete input is the trimmed, non-empty, under-limit message. -/
theorem word_limit_validation_witness :
    handleKeyDownEnter false overLimitInput = none ∧
    ("hi there" = jsTrim "  hi there  " ∧ "hi there" ≠ "" ∧
      jsWordCount "hi there" ≤ 200) :=
  ⟨(word_limit_validation false overLimitInput "x").2 (by decide),
   (word_limit_validation false "  hi there  " "hi there").1 (by decide)⟩

/-- C8: in the submit handler the socket send is the first observable effect,
before every animation-state application (state setters flush only after the
handler returns), and when a previous answer is displayed the transition of
that answer into dissolving is scheduled exactly 50 ms after the (immediate)
send; with no previous answer no dissolving transition is scheduled. -/
theorem send_dispatched_before_animation (isFirst : Bool)
    (currentResponse msg : String) :
    (handleMessageSendTrace isFirst currentResponse msg).head?
        = some (0, SubmitEffect.wsSend msg) ∧
    (currentResponse ≠ "" →
      (50, SubmitEffect.applyState InteractionState.dissolving) ∈
        handleMessageSendTrace isFirst currentResponse msg) ∧
    (currentResponse = "" →
      ∀ t : ℕ, (t, SubmitEffect.applyState InteractionState.dissolving) ∉
        handleMessageSendTrace isFirst currentResponse msg) := by
  refine ⟨?_, fun hr => ?_, fun hr t => ?_⟩
  · cases isFirst <;> simp [handleMessageSendTrace]
  · cases isFirst <;> simp [handleMessageSendTrace, hr]
  · cases isFirst <;> simp [handleMessageSendTrace, hr]

/-- C8 witness: with a displayed previous answer the dissolve transition is in
the trace at 50 ms; on a fresh first submission no dissolve is scheduled. -/
theorem send_dispatched_before_animation_witness :
    (50, SubmitEffect.applyState InteractionState.dissolving) ∈
      handleMessageSendTrace false "old answer" "next question" ∧
    (3, SubmitEffect.applyState InteractionState.dissolving) ∉
      handleMessageSendTrace true "" "first question" :=
  ⟨(send_dispatched_before_animation false "old answer" "next question").2.1
      (by decide),
   (send_dispatched_before_animation true "" "first question").2.2 rfl 3⟩

/-- Helper: closing never changes the visitor identifier, however many times
the channel drops. -/
theorem stateAfterCloses_visitorId (s : ChatConnection) :
    ∀ n, (stateAfterCloses s n).visitorId = s.visitorId := by
  intro n
  induction n generalizing s with
  | zero => rfl
  | succ k ih =>
      rw [stateAfterCloses, ih]
      rfl

/-- C9: every unexpected close schedules exactly one reconnection attempt,
with a fixed 3000 ms delay (independent of how many closes preceded it, hence
fixed rather than exponential backoff), and every scheduled attempt reuses the
visitor identifier of the original connection, so the reopened URL is the same
chat URL for the same visitor. -/
theorem reconnect_fixed_delay_same_visitor (s : ChatConnection) (n : ℕ) :
    (onCloseHandler s).2 = [(3000, s.visitorId)] ∧
    reconnectSchedulesAfterCloses s n = List.replicate n (3000, s.visitorId) ∧
    (stateAfterCloses s n).visitorId = s.visitorId ∧
    (∀ base, wsChatUrl base (stateAfterCloses s n).visitorId
        = wsChatUrl base s.visitorId) := by
  refine ⟨rfl, ?_, stateAfterCloses_visitorId s n,
    fun base => by rw [stateAfterCloses_visitorId]⟩
  induction n generalizing s with
  | zero => rfl
  | succ k ih =>
      rw [reconnectSchedulesAfterCloses, ih]
      simp [onCloseHandler, List.replicate]

/-- Frame types handled by the dispatcher switch. -/
def handledTypes : List String :=
  ["conversation_quote", "message_received", "ai_response_chunk",
   "ai_response_complete", "ai_response", "error"]

/-- C10: a frame whose type tag is none of the handled types produces no UI
callback, no immediate or delayed state change, leaves the whole terminal
state unchanged, and never closes the connection; it is only logged. -/
theorem unknown_frame_no_effect (f : InboundFrame) (s : TerminalState)
    (h : f.type ∉ handledTypes) :
    handleWebSocketMessage f = { logsUnknownType := true } ∧
    applyDispatchEffects (handleWebSocketMessage f) s = s ∧
    (handleWebSocketMessage f).closesConnection = false ∧
    (handleWebSocketMessage f).delayedStateChange = none := by
  simp only [handledTypes, List.mem_cons, List.not_mem_nil, or_false, not_or] at h
  obtain ⟨h₁, h₂, h₃, h₄, h₅, h₆⟩ := h
  have hw : handleWebSocketMessage f = { logsUnknownType := true } := by
    simp [handleWebSocketMessage, h₁, h₂, h₃, h₄, h₅, h₆]
  refine ⟨hw, ?_, by rw [hw], by rw [hw]⟩
  rw [hw]
  simp [applyDispatchEffects]

/-- C10 witness: a heartbeat_ack frame (not handled by the client switch) is
only logged and leaves the initial terminal state unchanged. -/
theorem unknown_frame_no_effect_witness :
    handleWebSocketMessage { type := "heartbeat_ack" } = { logsUnknownType := true } ∧
    applyDispatchEffects (handleWebSocketMessage { type := "heartbeat_ack" })
        initialTerminalState = initialTerminalState :=
  ⟨(unknown_frame_no_effect { type := "heartbeat_ack" } initialTerminalState
      (by decide)).1,
   (unknown_frame_no_effect { type := "heartbeat_ack" } initialTerminalState
      (by decide)).2.1⟩

end PortfolioChat
